import Mathlib

/-!
Shallow embedding of `linux/main.py` from GoogleCloudPlatform/compute-gpu-monitoring.

The script samples per-GPU metrics by invoking `nvidia-smi`, derives a
memory-used-percent metric, and publishes one time series per (device, metric)
pair to Cloud Monitoring in an endless fixed-cadence loop.

Modelling conventions:
- Python floats are modelled as `ℚ`; the numeric values involved in the claims
  (plain decimal probe fields, `round`, `int`) are exact at these inputs.
- Python exceptions are modelled by `Except PyErr`; an uncaught exception is an
  `Except.error` propagating out of the function, as in the source.
- Python dicts are modelled as insertion-ordered association lists with
  replace-on-rebind (`insertAssoc`), matching CPython dict semantics.
- External effects (the `nvidia-smi` subprocess, the metadata HTTP endpoints,
  `create_time_series`) are inputs: the embedding takes their outcome as an
  argument and computes what the script does with it.
-/

/-- Exceptions raised by the modelled fragments of the script. -/
inductive PyErr where
  | keyError (key : String)
  | zeroDivisionError
  | valueError
  | indexError
deriving DecidableEq, Repr

/-- View of an `Except` value as a sum, to derive decidable equality. -/
def exceptToSum : Except ε α → ε ⊕ α
  | .error e => .inl e
  | .ok a => .inr a

instance {ε α : Type} [DecidableEq ε] [DecidableEq α] : DecidableEq (Except ε α) :=
  fun a b => decidable_of_iff (exceptToSum a = exceptToSum b)
    (by cases a <;> cases b <;> simp [exceptToSum])

/-- Multiplication on `ℚ` written out on numerators and denominators, so that
concrete values reduce inside the kernel (the library marks `Rat.mul`
irreducible); `qmul_eq` proves it equal to `*`. -/
def qmul (a b : ℚ) : ℚ := mkRat (a.num * b.num) (a.den * b.den)

/-- Subtraction on `ℚ` in the same kernel-reducible style; `qsub_eq` proves it
equal to `-`. -/
def qsub (a b : ℚ) : ℚ := mkRat (a.num * b.den - b.num * a.den) (a.den * b.den)

/-- Division on `ℚ` in the same kernel-reducible style (division by zero gives
zero, as for `/` on `ℚ`); `qdiv_eq` proves it equal to `/`. -/
def qdiv (a b : ℚ) : ℚ :=
  if 0 ≤ b.num then mkRat (a.num * b.den) (a.den * b.num.toNat)
  else mkRat (-(a.num * b.den)) (a.den * (-b.num).toNat)

/-- Python `int(q)` on a real value: truncation toward zero (the reduced
denominator is positive, so t-division of the numerator by it truncates). -/
def pyInt (q : ℚ) : ℤ := Int.tdiv q.num (q.den : ℤ)

/-- Python `round(q)` with no `ndigits`: nearest integer, ties to even,
computed on the reduced fraction: `f` is the floor and `r2` is twice the
remainder numerator, compared against the denominator. -/
def pyRound (q : ℚ) : ℤ :=
  let f := Int.fdiv q.num (q.den : ℤ)
  let r2 := 2 * (q.num - f * (q.den : ℤ))
  if r2 < (q.den : ℤ) then f
  else if (q.den : ℤ) < r2 then f + 1
  else if f % 2 = 0 then f else f + 1

/-- Numeric value of a list of decimal digit characters. -/
def digitsToNat (cs : List Char) : ℕ :=
  cs.foldl (fun a c => a * 10 + (c.toNat - 48)) 0

/-- Python `float(s)` restricted to plain decimal literals: optional
surrounding spaces, an optional sign, digits with an optional fractional part
(the only shapes occurring in `nvidia-smi --format=csv,nounits` fields).
`none` models `ValueError`. The exponent/`inf`/`nan` forms that CPython also
accepts are not modelled; they do not occur in the inputs of the claims. -/
def pyFloat (s : String) : Option ℚ :=
  let cs := ((s.toList.dropWhile (fun c => c = ' ')).reverse.dropWhile
    (fun c => c = ' ')).reverse
  let sgn : ℤ := match cs with
    | '-' :: _ => -1
    | _ => 1
  let body := match cs with
    | '-' :: t => t
    | '+' :: t => t
    | _ => cs
  let intPart := body.takeWhile Char.isDigit
  let rest := body.drop intPart.length
  match rest with
  | [] =>
    if intPart.isEmpty then none
    else some (mkRat (sgn * digitsToNat intPart) 1)
  | '.' :: frac =>
    if intPart.isEmpty && frac.isEmpty then none
    else if frac.all Char.isDigit then
      some (mkRat (sgn * (digitsToNat intPart * 10 ^ frac.length + digitsToNat frac))
        (10 ^ frac.length))
    else none
  | _ => none

/-- Splitting of a character list at every occurrence of a separator
character; an empty input yields one empty group, like Python `str.split`. -/
def splitChar (sep : Char) : List Char → List (List Char)
  | [] => [[]]
  | c :: cs =>
    let r := splitChar sep cs
    if c = sep then [] :: r
    else
      match r with
      | [] => [[c]]
      | g :: gs => (c :: g) :: gs

/-- Python `s.split(sep)` for a one-character separator (the source only splits
on `","` and `"/"`). -/
def pySplit (sep : Char) (s : String) : List String :=
  (splitChar sep s.data).map List.asString

/-- Python `str.splitlines()` for newline-separated text (the script decodes
subprocess stdout and splits it into lines; a trailing newline yields no empty
final line, and an empty string yields no lines). -/
def pySplitlines (s : String) : List String :=
  let parts := pySplit (Char.ofNat 10) s
  match parts.getLast? with
  | some "" => parts.dropLast
  | _ => parts

/-- The `METRICS` dict of the script in its insertion order (the order
`METRICS.items()` iterates in `report_metrics`). -/
def METRICS : List (String × String) :=
  [("utilization.gpu", "instance/gpu/utilization"),
   ("utilization.memory", "instance/gpu/memory_utilization"),
   ("memory.total", "instance/gpu/memory_total"),
   ("memory.used", "instance/gpu/memory_used"),
   ("memory.free", "instance/gpu/memory_free"),
   ("temperature.gpu", "instance/gpu/temperature")]

/-- The `MEM_USED_PERCENT` constant. -/
def MEM_USED_PERCENT : String := "instance/gpu/memory_used_percent"

/-- The catalog metric keys, `METRICS.keys()`. -/
def catalogKeys : List String := METRICS.map Prod.fst

/-- `sorted(METRICS.keys())` written out: the column order requested from
`nvidia-smi` (after the two fixed columns `gpu_name`, `gpu_bus_id`) and the key
order used when zipping parsed values in `get_metrics`. The six catalog keys in
lexicographic order; `sortedMetricKeys_perm` ties the list to the catalog. -/
def sortedMetricKeys : List String :=
  ["memory.free", "memory.total", "memory.used",
   "temperature.gpu", "utilization.gpu", "utilization.memory"]

/-- Device key of a parsed line: `tuple(line[:2])`. A well-formed line yields a
two-element list (gpu type, gpu bus id); a short line yields a shorter tuple,
which the source also constructs without error. -/
abbrev DeviceKey := List String

/-- Per-device metric dict, insertion ordered. -/
abbrev MetricMap := List (String × ℚ)

/-- The `MetricsData` type of the script: dict from device key to metric dict. -/
abbrev MetricsData := List (DeviceKey × MetricMap)

/-- Python dict lookup `m[k]` as an `Option` (`none` = `KeyError`). -/
def dictGet (m : MetricMap) (k : String) : Option ℚ :=
  match m.find? (fun kv => kv.1 == k) with
  | some kv => some kv.2
  | none => none

/-- Python dict assignment `data[k] = v`: rebinding an existing key keeps its
position and replaces the value, a new key is appended. -/
def insertAssoc (data : MetricsData) (k : DeviceKey) (v : MetricMap) : MetricsData :=
  if data.any (fun e => e.1 == k) then
    data.map (fun e => if e.1 == k then (k, v) else e)
  else data ++ [(k, v)]

/-- The dict comprehension of `get_metrics`:
`{k: v for k, v in zip(sorted(METRICS.keys()), map(float, line[2:]))}`.
`zip` stops at the shorter sequence (surplus fields are never parsed, missing
fields silently yield a shorter dict) and a failing `float` raises. -/
def zipParse : List String → List String → Except PyErr MetricMap
  | _, [] => .ok []
  | [], _ => .ok []
  | k :: ks, f :: fs =>
    match pyFloat f with
    | none => .error .valueError
    | some v =>
      match zipParse ks fs with
      | .error e => .error e
      | .ok rest => .ok ((k, v) :: rest)

/-- Parsing of one stdout line in `get_metrics`: split on commas, the first two
fields form the device key, the remaining fields are zipped against the sorted
catalog keys. -/
def parseLineEntry (line : String) : Except PyErr (DeviceKey × MetricMap) :=
  let fields := pySplit ',' line
  match zipParse sortedMetricKeys (fields.drop 2) with
  | .error e => .error e
  | .ok m => .ok (fields.take 2, m)

/-- The line loop of `get_metrics` over the decoded stdout lines, threading the
`data` dict; an exception in any line aborts the whole loop (nothing is caught). -/
def parseLines : List String → MetricsData → Except PyErr MetricsData
  | [], data => .ok data
  | l :: ls, data =>
    match parseLineEntry l with
    | .error e => .error e
    | .ok kv => parseLines ls (insertAssoc data kv.1 kv.2)

/-- `get_metrics` applied to the stdout text produced by the `nvidia-smi`
subprocess call. -/
def get_metrics (stdoutText : String) : Except PyErr MetricsData :=
  parseLines (pySplitlines stdoutText) []

/-- The `timeout` argument of the `subprocess.run` call in `get_metrics`: the
source passes none. -/
def get_metrics_timeout : Option ℚ := none

/-- How long the script blocks on the probe subprocess when the tool itself
runs for `toolDuration` seconds: with a timeout the wait is capped (expiry
raising `TimeoutExpired`), without one the script waits for the tool in full. -/
def probeBlockingTime (toolDuration : ℚ) : ℚ :=
  match get_metrics_timeout with
  | some limit => min toolDuration limit
  | none => toolDuration

/-- The per-series constant header of `report_metrics`: host identity resource
labels and the single end timestamp taken once per call
(`seconds = int(now)`, `nanos = int((now - seconds) * 10^9)`). -/
structure HostHeader where
  projectId : String
  zone : String
  instanceId : String
  seconds : ℤ
  nanos : ℤ
deriving DecidableEq, Repr

/-- Header construction in `report_metrics` from `now = time.time()`. -/
def mkHeader (projectId zone instanceId : String) (now : ℚ) : HostHeader :=
  { projectId := projectId, zone := zone, instanceId := instanceId,
    seconds := pyInt now,
    nanos := pyInt (qmul (qsub now (pyInt now : ℚ)) 1000000000) }

/-- One `TimeSeries` as built by `report_metrics`: metric type, the two device
labels, the copied resource labels and timestamp, and the single point value. -/
structure TimeSeries where
  metricType : String
  gpuType : String
  gpuBusId : String
  instanceId : String
  zone : String
  projectId : String
  seconds : ℤ
  nanos : ℤ
  value : ℚ
deriving DecidableEq, Repr

/-- Series construction shared by both branches of the inner loop body. -/
def mkTs (hdr : HostHeader) (gpuType gpuBusId gcpMetric : String) (v : ℚ) : TimeSeries :=
  { metricType := "custom.googleapis.com/" ++ gcpMetric,
    gpuType := gpuType, gpuBusId := gpuBusId,
    instanceId := hdr.instanceId, zone := hdr.zone, projectId := hdr.projectId,
    seconds := hdr.seconds, nanos := hdr.nanos, value := v }

/-- The iteration sequence of the inner loop:
`itertools.chain(METRICS.items(), (('', MEM_USED_PERCENT),))`. -/
def metricsChain : List (String × String) := METRICS ++ [("", MEM_USED_PERCENT)]

/-- Body of the inner loop of `report_metrics` for one (smi, gcp) metric pair:
the derived pair divides `memory.used` by `memory.total` (KeyError on a missing
key, ZeroDivisionError on a zero total, neither caught), every other pair looks
its value up directly. -/
def buildPoint (hdr : HostHeader) (gpuType gpuBusId : String) (m : MetricMap)
    (pair : String × String) : Except PyErr TimeSeries :=
  if pair.2 = MEM_USED_PERCENT then
    match dictGet m "memory.used" with
    | none => .error (.keyError "memory.used")
    | some used =>
      match dictGet m "memory.total" with
      | none => .error (.keyError "memory.total")
      | some total =>
        if total = 0 then .error .zeroDivisionError
        else .ok (mkTs hdr gpuType gpuBusId pair.2 ((pyRound (qmul (qdiv used total) 100) : ℤ) : ℚ))
  else
    match dictGet m pair.1 with
    | none => .error (.keyError pair.1)
    | some v => .ok (mkTs hdr gpuType gpuBusId pair.2 v)

/-- Sequencing of a list of fallible constructions, stopping at the first
raised exception (the semantics of the Python `for` loop doing `append`). -/
def exceptMap (f : α → Except PyErr β) : List α → Except PyErr (List β)
  | [] => .ok []
  | x :: xs =>
    match f x with
    | .error e => .error e
    | .ok y =>
      match exceptMap f xs with
      | .error e => .error e
      | .ok ys => .ok (y :: ys)

/-- The inner loop of `report_metrics` for one device: the key is unpacked as
`(gpu_type, gpu_bus_id)` (a key that is not a pair raises ValueError), then one
series per chained metric pair is built. -/
def buildDeviceSeries (hdr : HostHeader) (key : DeviceKey) (m : MetricMap) :
    Except PyErr (List TimeSeries) :=
  match key with
  | [gpuType, gpuBusId] => exceptMap (buildPoint hdr gpuType gpuBusId m) metricsChain
  | _ => .error .valueError

/-- The outer loop of `report_metrics` over `values.items()`, appending each
device's series in order; an exception anywhere aborts the whole build. -/
def buildSeries (hdr : HostHeader) : MetricsData → Except PyErr (List TimeSeries)
  | [] => .ok []
  | e :: rest =>
    match buildDeviceSeries hdr e.1 e.2 with
    | .error err => .error err
    | .ok ds =>
      match buildSeries hdr rest with
      | .error err => .error err
      | .ok tail => .ok (ds ++ tail)

/-- One call to `METRIC_CLIENT.create_time_series`. -/
structure PublishCall where
  name : String
  series : List TimeSeries
deriving DecidableEq, Repr

/-- `report_metrics`: builds the series list (uncaught exceptions propagate),
then performs exactly one `create_time_series` call; only that call is inside a
`try`, and a raised publish error (`publishErr`) is printed to stderr (the
returned log lines) and swallowed. Returns the publish calls made and the
stderr lines printed. -/
def report_metrics (values : MetricsData) (projectId zone instanceId : String)
    (now : ℚ) (publishErr : Option String) :
    Except PyErr (List PublishCall × List String) :=
  let hdr := mkHeader projectId zone instanceId now
  match buildSeries hdr values with
  | .error e => .error e
  | .ok series =>
    let calls := [⟨"projects/" ++ projectId, series⟩]
    match publishErr with
    | none => .ok (calls, [])
    | some msg => .ok (calls, ["Encountered an error:", msg])

/-- Outcome of a `subprocess.run` invocation of `nvidia-smi -L` with
`check=True`: the binary may be missing (FileNotFoundError), exit non-zero
(CalledProcessError), or complete with some stdout. -/
inductive SubprocessOutcome where
  | fileNotFound
  | calledProcessError (stderrText stdoutText : String)
  | completed (stdoutText : String)
deriving DecidableEq, Repr

/-- `check_nvidia_smi`: False when the tool is missing, errors, or lists zero
GPUs; True otherwise. All three failure reports go to stderr. -/
def check_nvidia_smi (outcome : SubprocessOutcome) : Bool :=
  match outcome with
  | .fileNotFound => false
  | .calledProcessError _ _ => false
  | .completed out => if (pySplitlines out).length = 0 then false else true

/-- `get_instance_params`: positional parsing of the metadata zone response,
`zone = data.split("/")[3]` then `project_id = data.split("/")[1]`; an index
out of range raises IndexError (uncaught in the source). -/
def get_instance_params (zoneResp idResp : String) :
    Except PyErr (String × String × String) :=
  let parts := pySplit '/' zoneResp
  match parts.get? 3 with
  | none => .error .indexError
  | some zone =>
    match parts.get? 1 with
    | none => .error .indexError
    | some projectId => .ok (projectId, zone, idResp)

/-- How `main` terminates (or reaches the loop): a `sys.exit` code, an uncaught
exception, or entry into the collection loop with the resolved identity. -/
inductive MainOutcome where
  | exit (code : ℕ)
  | uncaught (e : PyErr)
  | entersLoop (projectId zone instanceId : String)
deriving DecidableEq, Repr

/-- The startup phase of `main`: `check_nvidia_smi` failure exits 1; a metadata
connection error (`metadata = none`) is the only exception caught, exiting 2;
any other exception from `get_instance_params` propagates uncaught. -/
def main_startup (smi : SubprocessOutcome) (metadata : Option (String × String)) :
    MainOutcome :=
  if check_nvidia_smi smi = false then .exit 1
  else
    match metadata with
    | none => .exit 2
    | some md =>
      match get_instance_params md.1 md.2 with
      | .error e => .uncaught e
      | .ok ident => .entersLoop ident.1 ident.2.1 ident.2.2

/-- Environment of one loop iteration: the probe stdout the tool produced, and
whether `create_time_series` raises this cycle (and with what message). -/
structure CycleEnv where
  probeStdout : String
  publishErr : Option String
  now : ℚ

/-- One iteration of the `while True:` body: `get_metrics` then
`report_metrics`; no exception handling at this level. -/
def runCycle (projectId zone instanceId : String) (env : CycleEnv) :
    Except PyErr (List PublishCall × List String) :=
  match get_metrics env.probeStdout with
  | .error e => .error e
  | .ok values => report_metrics values projectId zone instanceId env.now env.publishErr

/-- The first `envs.length` iterations of the collection loop: an uncaught
exception in any cycle terminates the process (the remaining cycles never run),
otherwise each cycle's outcome is collected in order. -/
def runLoop (projectId zone instanceId : String) :
    List CycleEnv → Except PyErr (List (List PublishCall × List String))
  | [] => .ok []
  | env :: rest =>
    match runCycle projectId zone instanceId env with
    | .error e => .error e
    | .ok out =>
      match runLoop projectId zone instanceId rest with
      | .error e => .error e
      | .ok outs => .ok (out :: outs)

/-! ### Helper lemmas about the embedded operations -/

theorem ratDenNeZero (a : ℚ) : ((a.den : ℚ)) ≠ 0 :=
  Nat.cast_ne_zero.mpr (Rat.den_ne_zero a)

theorem ratNumEq (a : ℚ) : (a.num : ℚ) = a * a.den := by
  calc (a.num : ℚ) = (a.num : ℚ) / a.den * a.den :=
        (div_mul_cancel₀ _ (ratDenNeZero a)).symm
  _ = a * a.den := by rw [Rat.num_div_den]

theorem qmul_eq (a b : ℚ) : qmul a b = a * b := by
  unfold qmul
  rw [Rat.mkRat_eq_div]
  push_cast
  rw [div_eq_iff (mul_ne_zero (ratDenNeZero a) (ratDenNeZero b)), ratNumEq a, ratNumEq b]
  ring

theorem qsub_eq (a b : ℚ) : qsub a b = a - b := by
  unfold qsub
  rw [Rat.mkRat_eq_div]
  push_cast
  rw [div_eq_iff (mul_ne_zero (ratDenNeZero a) (ratDenNeZero b)), ratNumEq a, ratNumEq b]
  ring

theorem qdiv_eq (a b : ℚ) : qdiv a b = a / b := by
  unfold qdiv
  rcases lt_trichotomy b.num 0 with hneg | hzero | hpos
  · have hb : b ≠ 0 := Rat.num_ne_zero.1 (ne_of_lt hneg)
    have hbq : (b.num : ℚ) ≠ 0 := Int.cast_ne_zero.2 (Rat.num_ne_zero.2 hb)
    have htz : ((-b.num).toNat : ℤ) = -b.num := Int.toNat_of_nonneg (by omega)
    have htn : (((-b.num).toNat : ℕ) : ℚ) = -(b.num : ℚ) := by
      exact_mod_cast congrArg (fun z : ℤ => (z : ℚ)) htz
    rw [if_neg (not_le.2 hneg), Rat.mkRat_eq_div]
    push_cast
    rw [htn, div_eq_div_iff (mul_ne_zero (ratDenNeZero a) (neg_ne_zero.2 hbq)) hb,
      ratNumEq a, ratNumEq b]
    ring
  · rw [if_pos (le_of_eq hzero.symm), hzero]
    have hb : b = 0 := Rat.num_eq_zero.1 hzero
    rw [hb, div_zero]
    simp [Rat.mkRat_eq_div]
  · have hb : b ≠ 0 := Rat.num_ne_zero.1 (ne_of_gt hpos)
    have hbq : (b.num : ℚ) ≠ 0 := Int.cast_ne_zero.2 (Rat.num_ne_zero.2 hb)
    have htz : (b.num.toNat : ℤ) = b.num := Int.toNat_of_nonneg (le_of_lt hpos)
    have htn : ((b.num.toNat : ℕ) : ℚ) = (b.num : ℚ) := by
      exact_mod_cast congrArg (fun z : ℤ => (z : ℚ)) htz
    rw [if_pos (le_of_lt hpos), Rat.mkRat_eq_div]
    push_cast
    rw [htn, div_eq_div_iff (mul_ne_zero (ratDenNeZero a) hbq) hb, ratNumEq a, ratNumEq b]
    ring

theorem exceptMap_ok_length {f : α → Except PyErr β} {l : List α} {ys : List β}
    (h : exceptMap f l = .ok ys) : ys.length = l.length := by
  induction l generalizing ys with
  | nil =>
    simp only [exceptMap] at h
    injection h with h2
    subst h2
    rfl
  | cons x xs ih =>
    simp only [exceptMap] at h
    split at h
    · exact absurd h (by simp)
    · split at h
      · exact absurd h (by simp)
      · injection h with h2
        subst h2
        rename_i ys2 hrest
        simp [ih hrest]

theorem exceptMap_ok_mem {f : α → Except PyErr β} {l : List α} {ys : List β}
    (h : exceptMap f l = .ok ys) : ∀ x ∈ l, ∃ y, f x = .ok y := by
  induction l generalizing ys with
  | nil => intro x hx; exact absurd hx (List.not_mem_nil x)
  | cons a xs ih =>
    intro x hx
    simp only [exceptMap] at h
    split at h
    · exact absurd h (by simp)
    · rename_i y hfa
      split at h
      · exact absurd h (by simp)
      · rename_i ys2 hrest
        rcases List.mem_cons.1 hx with hxa | hxs
        · subst hxa; exact ⟨y, hfa⟩
        · exact ih hrest x hxs

theorem exceptMap_ok_forall {f : α → Except PyErr β} {l : List α} {ys : List β}
    (h : exceptMap f l = .ok ys) : ∀ y ∈ ys, ∃ x ∈ l, f x = .ok y := by
  induction l generalizing ys with
  | nil =>
    simp only [exceptMap] at h
    injection h with h2
    subst h2
    intro y hy
    exact absurd hy (List.not_mem_nil y)
  | cons a xs ih =>
    simp only [exceptMap] at h
    split at h
    · exact absurd h (by simp)
    · rename_i y0 hfa
      split at h
      · exact absurd h (by simp)
      · rename_i ys2 hrest
        injection h with h2
        subst h2
        intro y hy
        rcases List.mem_cons.1 hy with hy0 | hy2
        · exact ⟨a, List.mem_cons_self a xs, hy0 ▸ hfa⟩
        · obtain ⟨x, hxl, hfx⟩ := ih hrest y hy2
          exact ⟨x, List.mem_cons_of_mem a hxl, hfx⟩

theorem buildSeries_ok_mem {hdr : HostHeader} {values : MetricsData} {s : List TimeSeries}
    (h : buildSeries hdr values = .ok s) :
    ∀ e ∈ values, ∃ ds, buildDeviceSeries hdr e.1 e.2 = .ok ds := by
  induction values generalizing s with
  | nil => intro e he; exact absurd he (List.not_mem_nil e)
  | cons a rest ih =>
    intro e he
    simp only [buildSeries] at h
    split at h
    · exact absurd h (by simp)
    · rename_i ds hds
      split at h
      · exact absurd h (by simp)
      · rename_i tail htail
        rcases List.mem_cons.1 he with hea | herest
        · exact ⟨ds, hea ▸ hds⟩
        · exact ih htail e herest

theorem buildSeries_ok_forall_ts {hdr : HostHeader} {values : MetricsData} {s : List TimeSeries}
    (h : buildSeries hdr values = .ok s) :
    ∀ ts ∈ s, ∃ e ∈ values, ∃ ds, buildDeviceSeries hdr e.1 e.2 = .ok ds ∧ ts ∈ ds := by
  induction values generalizing s with
  | nil =>
    simp only [buildSeries] at h
    injection h with h2
    subst h2
    intro ts hts
    exact absurd hts (List.not_mem_nil ts)
  | cons a rest ih =>
    simp only [buildSeries] at h
    split at h
    · exact absurd h (by simp)
    · rename_i ds hds
      split at h
      · exact absurd h (by simp)
      · rename_i tail htail
        injection h with h2
        subst h2
        intro ts hts
        rcases List.mem_append.1 hts with hd | ht
        · exact ⟨a, List.mem_cons_self a rest, ds, hds, hd⟩
        · obtain ⟨e, he, ds2, hds2, hts2⟩ := ih htail ts ht
          exact ⟨e, List.mem_cons_of_mem a he, ds2, hds2, hts2⟩

theorem buildSeries_error_of_entry {hdr : HostHeader} {values : MetricsData}
    {e : DeviceKey × MetricMap} (he : e ∈ values)
    (hbad : ∀ ds, buildDeviceSeries hdr e.1 e.2 ≠ .ok ds) :
    ∃ err, buildSeries hdr values = .error err := by
  induction values with
  | nil => exact absurd he (List.not_mem_nil e)
  | cons a rest ih =>
    rcases List.mem_cons.1 he with hea | herest
    · subst hea
      cases hda : buildDeviceSeries hdr e.1 e.2 with
      | error err => exact ⟨err, by simp only [buildSeries]; rw [hda]⟩
      | ok ds => exact absurd hda (hbad ds)
    · cases hda : buildDeviceSeries hdr a.1 a.2 with
      | error err => exact ⟨err, by simp only [buildSeries]; rw [hda]⟩
      | ok ds =>
        obtain ⟨err, herr⟩ := ih herest
        exact ⟨err, by simp only [buildSeries]; rw [hda, herr]⟩

theorem buildSeries_ok_length {hdr : HostHeader} {values : MetricsData} {s : List TimeSeries}
    (h : buildSeries hdr values = .ok s) : s.length = 7 * values.length := by
  induction values generalizing s with
  | nil =>
    simp only [buildSeries] at h
    injection h with h2
    subst h2
    rfl
  | cons a rest ih =>
    simp only [buildSeries] at h
    split at h
    · exact absurd h (by simp)
    · rename_i ds hds
      split at h
      · exact absurd h (by simp)
      · rename_i tail htail
        injection h with h2
        subst h2
        have hds7 : ds.length = 7 := by
          simp only [buildDeviceSeries] at hds
          split at hds
          · rw [exceptMap_ok_length hds]; rfl
          · exact absurd hds (by simp)
        rw [List.length_append, hds7, ih htail, List.length_cons]
        ring

theorem buildPoint_ok_fields {hdr : HostHeader} {g b : String} {m : MetricMap}
    {pr : String × String} {ts : TimeSeries} (h : buildPoint hdr g b m pr = .ok ts) :
    ts.instanceId = hdr.instanceId ∧ ts.zone = hdr.zone ∧ ts.projectId = hdr.projectId ∧
    ts.seconds = hdr.seconds ∧ ts.nanos = hdr.nanos ∧ ts.gpuType = g ∧ ts.gpuBusId = b := by
  simp only [buildPoint] at h
  split at h
  · split at h
    · exact absurd h (by simp)
    · split at h
      · exact absurd h (by simp)
      · split at h
        · exact absurd h (by simp)
        · injection h with h2
          subst h2
          exact ⟨rfl, rfl, rfl, rfl, rfl, rfl, rfl⟩
  · split at h
    · exact absurd h (by simp)
    · injection h with h2
      subst h2
      exact ⟨rfl, rfl, rfl, rfl, rfl, rfl, rfl⟩

theorem buildPoint_ok_lookup {hdr : HostHeader} {g b : String} {m : MetricMap}
    {pr : String × String} {ts : TimeSeries} (hne : pr.2 ≠ MEM_USED_PERCENT)
    (h : buildPoint hdr g b m pr = .ok ts) : (dictGet m pr.1).isSome = true := by
  simp only [buildPoint] at h
  rw [if_neg hne] at h
  split at h
  · exact absurd h (by simp)
  · rename_i v hv
    rw [hv]
    rfl

theorem buildPoint_derived_total_zero {hdr : HostHeader} {g b : String} {m : MetricMap}
    {pr : String × String} (hp : pr.2 = MEM_USED_PERCENT)
    (htot : dictGet m "memory.total" = some 0) :
    ∀ ts, buildPoint hdr g b m pr ≠ .ok ts := by
  intro ts h
  simp only [buildPoint] at h
  rw [if_pos hp] at h
  split at h
  · exact absurd h (by simp)
  · rename_i used hused
    rw [htot] at h
    simp at h

theorem buildPoint_catalog_missing {hdr : HostHeader} {g b : String} {m : MetricMap}
    {pr : String × String} (hne : pr.2 ≠ MEM_USED_PERCENT) (hmiss : dictGet m pr.1 = none) :
    ∀ ts, buildPoint hdr g b m pr ≠ .ok ts := by
  intro ts h
  simp only [buildPoint] at h
  rw [if_neg hne, hmiss] at h
  exact absurd h (by simp)

theorem catalogKey_pair {k : String} (hk : k ∈ catalogKeys) :
    ∃ pr ∈ metricsChain, pr.1 = k ∧ pr.2 ≠ MEM_USED_PERCENT := by
  simp only [catalogKeys, METRICS, List.map_cons, List.map_nil, List.mem_cons,
    List.not_mem_nil, or_false] at hk
  rcases hk with rfl | rfl | rfl | rfl | rfl | rfl
  · exact ⟨("utilization.gpu", "instance/gpu/utilization"),
      by simp [metricsChain, METRICS], rfl, by decide⟩
  · exact ⟨("utilization.memory", "instance/gpu/memory_utilization"),
      by simp [metricsChain, METRICS], rfl, by decide⟩
  · exact ⟨("memory.total", "instance/gpu/memory_total"),
      by simp [metricsChain, METRICS], rfl, by decide⟩
  · exact ⟨("memory.used", "instance/gpu/memory_used"),
      by simp [metricsChain, METRICS], rfl, by decide⟩
  · exact ⟨("memory.free", "instance/gpu/memory_free"),
      by simp [metricsChain, METRICS], rfl, by decide⟩
  · exact ⟨("temperature.gpu", "instance/gpu/temperature"),
      by simp [metricsChain, METRICS], rfl, by decide⟩

theorem buildDeviceSeries_bad {hdr : HostHeader} {key : DeviceKey} {m : MetricMap}
    (hbad : dictGet m "memory.total" = some 0 ∨ ∃ k ∈ catalogKeys, dictGet m k = none) :
    ∀ ds, buildDeviceSeries hdr key m ≠ .ok ds := by
  intro ds h
  simp only [buildDeviceSeries] at h
  split at h
  · rcases hbad with htot | ⟨k, hk, hmiss⟩
    · have hmem : ("", MEM_USED_PERCENT) ∈ metricsChain := by simp [metricsChain]
      obtain ⟨ts, hts⟩ := exceptMap_ok_mem h ("", MEM_USED_PERCENT) hmem
      exact buildPoint_derived_total_zero rfl htot ts hts
    · obtain ⟨pr, hpr, hpr1, hpr2⟩ := catalogKey_pair hk
      obtain ⟨ts, hts⟩ := exceptMap_ok_mem h pr hpr
      exact buildPoint_catalog_missing hpr2 (hpr1 ▸ hmiss) ts hts
  · exact absurd h (by simp)

theorem parseLines_append (l1 l2 : List String) (data : MetricsData) :
    parseLines (l1 ++ l2) data =
      match parseLines l1 data with
      | .error e => .error e
      | .ok d => parseLines l2 d := by
  induction l1 generalizing data with
  | nil => simp [parseLines]
  | cons l ls ih =>
    simp only [List.cons_append, parseLines]
    cases hpe : parseLineEntry l with
    | error e => rfl
    | ok kv => exact ih _

theorem sortedMetricKeys_perm : List.Perm sortedMetricKeys catalogKeys := by decide

theorem buildDeviceSeries_ok_ts {hdr : HostHeader} {key : DeviceKey} {m : MetricMap}
    {ds : List TimeSeries} (h : buildDeviceSeries hdr key m = .ok ds) :
    ∀ ts ∈ ds, ts.instanceId = hdr.instanceId ∧ ts.zone = hdr.zone ∧
      ts.projectId = hdr.projectId ∧ ts.seconds = hdr.seconds ∧ ts.nanos = hdr.nanos ∧
      key = [ts.gpuType, ts.gpuBusId] := by
  intro ts hts
  simp only [buildDeviceSeries] at h
  split at h
  · rename_i g b
    obtain ⟨pr, hpr, hok⟩ := exceptMap_ok_forall h ts hts
    obtain ⟨h1, h2, h3, h4, h5, h6, h7⟩ := buildPoint_ok_fields hok
    exact ⟨h1, h2, h3, h4, h5, by rw [h6, h7]⟩
  · exact absurd h (by simp)

/-! ### Concrete data used to instantiate the claims -/

/-- Metric dict of the sample device of the spec
(`utilization.gpu=55, utilization.memory=30, memory.total=40960,
memory.used=10240, memory.free=30720, temperature.gpu=60`). -/
def sampleMap : MetricMap :=
  [("memory.free", 30720), ("memory.total", 40960), ("memory.used", 10240),
   ("temperature.gpu", 60), ("utilization.gpu", 55), ("utilization.memory", 30)]

/-- Single-device SampleSet holding the spec sample device. -/
def sampleValues : MetricsData := [(["A100", "0000:00:04.0"], sampleMap)]

/-- Two-device SampleSet whose first device reports `memory.total = 0` and
whose second device is fully well-formed. -/
def totalZeroValues : MetricsData :=
  [(["A100", "0000:00:04.0"],
    [("memory.free", 40960), ("memory.total", 0), ("memory.used", 0),
     ("temperature.gpu", 50), ("utilization.gpu", 10), ("utilization.memory", 0)]),
   (["A100", "0000:00:05.0"], sampleMap)]

/-- Metric dict parsed from the probe line `A100,0:4,1,2,3,4,5,6`. -/
def parsedSix : MetricMap :=
  [("memory.free", 1), ("memory.total", 2), ("memory.used", 3),
   ("temperature.gpu", 4), ("utilization.gpu", 5), ("utilization.memory", 6)]

/-- Series built by `report_metrics` for the device `A100,0:4` with metric
dict `parsedSix` at `now = 0` (derived percent: `round(3 / 2 * 100) = 150`). -/
def sixSeries : List TimeSeries :=
  [mkTs (mkHeader "p" "z" "i" 0) "A100" "0:4" "instance/gpu/utilization" 5,
   mkTs (mkHeader "p" "z" "i" 0) "A100" "0:4" "instance/gpu/memory_utilization" 6,
   mkTs (mkHeader "p" "z" "i" 0) "A100" "0:4" "instance/gpu/memory_total" 2,
   mkTs (mkHeader "p" "z" "i" 0) "A100" "0:4" "instance/gpu/memory_used" 3,
   mkTs (mkHeader "p" "z" "i" 0) "A100" "0:4" "instance/gpu/memory_free" 1,
   mkTs (mkHeader "p" "z" "i" 0) "A100" "0:4" "instance/gpu/temperature" 4,
   mkTs (mkHeader "p" "z" "i" 0) "A100" "0:4" MEM_USED_PERCENT 150]

/-! ### Claims -/

/-- C1, counterexample: on a batch whose first device has `memory.total = 0`
and whose second device is fully well-formed, `report_metrics` raises
ZeroDivisionError: the derived metric is not omitted, the second device's
points and the first device's non-derived metrics are not published, and the
whole batch is aborted — contradicting the claim. -/
theorem C1_counterexample :
    report_metrics totalZeroValues "p" "z" "i" 0 none =
      Except.error PyErr.zeroDivisionError := by decide

/-- C1, amended: when any device sample has `memory.total = 0` or lacks a
catalog key, building the series raises an uncaught exception, so no point of
any device is published that cycle — the whole batch is aborted. -/
theorem C1_derived_failure_aborts_batch (values : MetricsData) (p z i : String)
    (now : ℚ) (perr : Option String)
    (h : ∃ e ∈ values, dictGet e.2 "memory.total" = some 0 ∨
      ∃ k ∈ catalogKeys, dictGet e.2 k = none) :
    ∃ err, report_metrics values p z i now perr = Except.error err := by
  obtain ⟨e, he, hbad⟩ := h
  obtain ⟨err, herr⟩ := buildSeries_error_of_entry he (buildDeviceSeries_bad hbad)
  refine ⟨err, ?_⟩
  simp only [report_metrics]
  rw [herr]

/-- C1, witness for the amended theorem at the two-device batch. -/
theorem C1_witness :
    ∃ err, report_metrics totalZeroValues "p" "z" "i" 0 none = Except.error err :=
  C1_derived_failure_aborts_batch totalZeroValues "p" "z" "i" 0 none
    ⟨(["A100", "0000:00:04.0"],
      [("memory.free", 40960), ("memory.total", 0), ("memory.used", 0),
       ("temperature.gpu", 50), ("utilization.gpu", 10), ("utilization.memory", 0)]),
     by decide, Or.inl (by decide)⟩

/-- C2, counterexample: a malformed first line (non-numeric value field) makes
`get_metrics` raise ValueError: the line is not merely excluded and the
well-formed second line is never parsed — contradicting the claim. -/
theorem C2_counterexample :
    get_metrics "x,y,z\nA100,0:4,1,2,3,4,5,6" = Except.error PyErr.valueError := by decide

/-- C2, amended: a probe line with a non-numeric value field aborts the entire
parse (the whole cycle's `get_metrics` raises, losing every line); a line with
too few fields is not excluded either — it yields an entry with a silently
truncated metric dict (shown for a 3-field line, which keeps one key). -/
theorem C2_malformed_line_aborts_parse (pre : List String) (bad : String)
    (post : List String) (d : MetricsData)
    (hpre : parseLines pre [] = Except.ok d)
    (hbad : parseLineEntry bad = Except.error PyErr.valueError) :
    parseLines (pre ++ bad :: post) [] = Except.error PyErr.valueError ∧
    parseLineEntry "a,b,1" = Except.ok (["a", "b"], [("memory.free", 1)]) := by
  constructor
  · rw [parseLines_append, hpre]
    simp only [parseLines, hbad]
  · decide

/-- C2, witness: the amended theorem at a good line followed by a malformed
line followed by another good line. -/
theorem C2_witness :
    parseLines (["A100,0:4,1,2,3,4,5,6"] ++ "x,y,z" :: ["B100,0:5,1,2,3,4,5,6"]) [] =
        Except.error PyErr.valueError ∧
    parseLineEntry "a,b,1" = Except.ok (["a", "b"], [("memory.free", 1)]) :=
  C2_malformed_line_aborts_parse ["A100,0:4,1,2,3,4,5,6"] "x,y,z"
    ["B100,0:5,1,2,3,4,5,6"] [(["A100", "0:4"], parsedSix)] (by decide) (by decide)

/-- C3, counterexample: a cycle whose probe output is malformed raises out of
the loop; the following cycle (with well-formed output) never runs —
contradicting per-cycle fault isolation. -/
theorem C3_counterexample :
    runLoop "p" "z" "i" [⟨"x,y,z", none, 0⟩, ⟨"A100,0:4,1,2,3,4,5,6", none, 0⟩] =
      Except.error PyErr.valueError := by decide

/-- C3, amended: only the publish call is guarded; any exception raised by a
cycle's probe parsing or metric transformation propagates out of the loop and
terminates it, so every later scheduled cycle is lost. -/
theorem C3_cycle_error_stops_loop (p z i : String) (env : CycleEnv)
    (rest : List CycleEnv) (e : PyErr) (h : runCycle p z i env = Except.error e) :
    runLoop p z i (env :: rest) = Except.error e := by
  simp only [runLoop, h]

/-- C3, witness: the amended theorem at a malformed-probe cycle followed by a
well-formed cycle with a failing publish. -/
theorem C3_witness :
    runLoop "p" "z" "i" [⟨"x,y,z", none, 0⟩, ⟨"A100,0:4,1,2,3,4,5,6", some "boom", 0⟩] =
      Except.error PyErr.valueError :=
  C3_cycle_error_stops_loop "p" "z" "i" ⟨"x,y,z", none, 0⟩
    [⟨"A100,0:4,1,2,3,4,5,6", some "boom", 0⟩] PyErr.valueError (by decide)

/-- C4, counterexample: the probe call's blocking time is not bounded by any
constant — no timeout is applied to the subprocess call, refuting the claim
that every probe invocation has a bounded execution time. -/
theorem C4_counterexample : ¬ ∃ bound : ℚ, ∀ d : ℚ, probeBlockingTime d ≤ bound := by
  rintro ⟨bound, h⟩
  have h1 := h (bound + 1)
  simp only [probeBlockingTime, get_metrics_timeout] at h1
  linarith

/-- C4, amended: the `subprocess.run` call of `get_metrics` passes no timeout,
so the script blocks for as long as the external tool runs; a hang in the tool
blocks the process indefinitely. -/
theorem C4_no_timeout (d : ℚ) :
    get_metrics_timeout = none ∧ probeBlockingTime d = d := ⟨rfl, rfl⟩

/-- C5, counterexample: the "tool missing" failure and the "no devices"
failure exit with the same code 1, so there is no distinct exit code per
failure kind and only two distinct non-zero codes exist — contradicting the
claim's "at least three". -/
theorem C5_counterexample :
    main_startup SubprocessOutcome.fileNotFound none = MainOutcome.exit 1 ∧
    main_startup (SubprocessOutcome.completed "")
      (some ("projects/1/zones/z-a", "42")) = MainOutcome.exit 1 :=
  ⟨by decide, by decide⟩

/-- C5, amended: every startup-validation failure terminates before the loop,
but tool-missing, tool-error and no-devices all exit with code 1 (zero
detected devices included), while only the metadata connectivity failure gets
its own code 2 — two distinct non-zero exit codes, not three. -/
theorem C5_startup_failures_exit (errText outText emptyOut : String)
    (metadata : Option (String × String))
    (hempty : pySplitlines emptyOut = []) :
    main_startup SubprocessOutcome.fileNotFound metadata = MainOutcome.exit 1 ∧
    main_startup (SubprocessOutcome.calledProcessError errText outText) metadata =
      MainOutcome.exit 1 ∧
    main_startup (SubprocessOutcome.completed emptyOut) metadata = MainOutcome.exit 1 ∧
    main_startup (SubprocessOutcome.completed "GPU 0: A100 (UUID: GPU-x)") none =
      MainOutcome.exit 2 := by
  refine ⟨rfl, rfl, ?_, rfl⟩
  simp [main_startup, check_nvidia_smi, hempty]

/-- C5, witness: the amended theorem at the empty device listing. -/
theorem C5_witness :
    main_startup SubprocessOutcome.fileNotFound (some ("md", "id")) = MainOutcome.exit 1 ∧
    main_startup (SubprocessOutcome.calledProcessError "oops" "")
      (some ("md", "id")) = MainOutcome.exit 1 ∧
    main_startup (SubprocessOutcome.completed "") (some ("md", "id")) = MainOutcome.exit 1 ∧
    main_startup (SubprocessOutcome.completed "GPU 0: A100 (UUID: GPU-x)") none =
      MainOutcome.exit 2 :=
  C5_startup_failures_exit "oops" "" "" (some ("md", "id")) (by decide)

/-- C6: for a device sample holding values for all six catalog keys with a
nonzero memory total, `report_metrics` builds exactly the six catalog points
(each carrying its sampled value, in particular utilization.gpu) plus the
derived point whose value is `round(memory.used / memory.total * 100)`. -/
theorem C6_derived_percent (hdr : HostHeader) (g b : String) (m : MetricMap)
    (u um mt mu mf temp : ℚ)
    (hu : dictGet m "utilization.gpu" = some u)
    (hum : dictGet m "utilization.memory" = some um)
    (hmt : dictGet m "memory.total" = some mt)
    (hmu : dictGet m "memory.used" = some mu)
    (hmf : dictGet m "memory.free" = some mf)
    (htemp : dictGet m "temperature.gpu" = some temp)
    (hnz : mt ≠ 0) :
    buildSeries hdr [([g, b], m)] = Except.ok
      [mkTs hdr g b "instance/gpu/utilization" u,
       mkTs hdr g b "instance/gpu/memory_utilization" um,
       mkTs hdr g b "instance/gpu/memory_total" mt,
       mkTs hdr g b "instance/gpu/memory_used" mu,
       mkTs hdr g b "instance/gpu/memory_free" mf,
       mkTs hdr g b "instance/gpu/temperature" temp,
       mkTs hdr g b MEM_USED_PERCENT ((pyRound (mu / mt * 100) : ℤ) : ℚ)] := by
  have hq : qmul (qdiv mu mt) 100 = mu / mt * 100 := by rw [qdiv_eq, qmul_eq]
  simp only [buildSeries, buildDeviceSeries, metricsChain, METRICS, List.cons_append,
    List.nil_append, exceptMap, buildPoint, MEM_USED_PERCENT, hu, hum, hmt, hmu, hmf,
    htemp, hq, hnz, reduceIte, String.reduceEq, List.append_nil]

/-- C6, witness: at the spec's sample device the published point set includes
`memory_used_percent = 25` and `utilization.gpu = 55`. -/
theorem C6_witness :
    buildSeries (mkHeader "p" "z" "i" 0) sampleValues = Except.ok
      [mkTs (mkHeader "p" "z" "i" 0) "A100" "0000:00:04.0" "instance/gpu/utilization" 55,
       mkTs (mkHeader "p" "z" "i" 0) "A100" "0000:00:04.0" "instance/gpu/memory_utilization" 30,
       mkTs (mkHeader "p" "z" "i" 0) "A100" "0000:00:04.0" "instance/gpu/memory_total" 40960,
       mkTs (mkHeader "p" "z" "i" 0) "A100" "0000:00:04.0" "instance/gpu/memory_used" 10240,
       mkTs (mkHeader "p" "z" "i" 0) "A100" "0000:00:04.0" "instance/gpu/memory_free" 30720,
       mkTs (mkHeader "p" "z" "i" 0) "A100" "0000:00:04.0" "instance/gpu/temperature" 60,
       mkTs (mkHeader "p" "z" "i" 0) "A100" "0000:00:04.0" MEM_USED_PERCENT 25] := by
  have h := C6_derived_percent (mkHeader "p" "z" "i" 0) "A100" "0000:00:04.0" sampleMap
    55 30 40960 10240 30720 60 (by decide) (by decide) (by decide) (by decide)
    (by decide) (by decide) (by norm_num)
  have hval : ((pyRound ((10240 : ℚ) / 40960 * 100) : ℤ) : ℚ) = 25 := by
    rw [show ((10240 : ℚ) / 40960 * 100) = 25 by norm_num]
    decide
  rw [show sampleValues = [(["A100", "0000:00:04.0"], sampleMap)] from rfl, h, hval]

/-- C7: a successful `report_metrics` call makes exactly one batched submission
to the backend; its series holds 7 points per device (the six catalog metrics
plus the derived one), every point is stamped with the same single timestamp
(seconds and nanoseconds split from the wall-clock value) and the host identity
resource labels, and every point's device labels come from a device of the
SampleSet. -/
theorem C7_batch_shape (values : MetricsData) (p z i : String) (now : ℚ)
    (perr : Option String) (calls : List PublishCall) (logs : List String)
    (h : report_metrics values p z i now perr = Except.ok (calls, logs)) :
    calls.length = 1 ∧
    ∀ c ∈ calls, c.name = "projects/" ++ p ∧
      c.series.length = 7 * values.length ∧
      ∀ ts ∈ c.series,
        ts.instanceId = i ∧ ts.zone = z ∧ ts.projectId = p ∧
        ts.seconds = (mkHeader p z i now).seconds ∧
        ts.nanos = (mkHeader p z i now).nanos ∧
        ∃ e ∈ values, e.1 = [ts.gpuType, ts.gpuBusId] := by
  simp only [report_metrics] at h
  cases hbs : buildSeries (mkHeader p z i now) values with
  | error e => rw [hbs] at h; simp at h
  | ok s =>
    rw [hbs] at h
    have hcalls : calls = [⟨"projects/" ++ p, s⟩] := by
      cases perr <;> simp only [Except.ok.injEq, Prod.mk.injEq] at h <;> exact h.1.symm
    subst hcalls
    refine ⟨rfl, ?_⟩
    intro c hc
    rcases List.mem_singleton.1 hc with rfl
    refine ⟨rfl, buildSeries_ok_length hbs, ?_⟩
    intro ts hts
    obtain ⟨e, he, ds, hds, htsds⟩ := buildSeries_ok_forall_ts hbs ts hts
    obtain ⟨h1, h2, h3, h4, h5, hkey⟩ := buildDeviceSeries_ok_ts hds ts htsds
    exact ⟨h1, h2, h3, h4, h5, e, he, hkey⟩

/-- C7, witness: the batch-shape theorem applied to the spec sample device at
`now = 3/2`. -/
theorem C7_witness :
    ∃ calls logs,
      report_metrics sampleValues "p" "z" "i" (mkRat 3 2) none = Except.ok (calls, logs) ∧
      calls.length = 1 := by
  obtain ⟨pr, hpr⟩ : ∃ pr, report_metrics sampleValues "p" "z" "i" (mkRat 3 2) none =
      Except.ok pr := ⟨_, rfl⟩
  exact ⟨pr.1, pr.2, hpr, (C7_batch_shape _ _ _ _ _ _ _ _ hpr).1⟩

/-- C8: a publish failure is caught inside `report_metrics`: the cycle still
returns normally (the process does not terminate), the error is printed to
stderr, exactly one submission call was made (no retry within the cycle), and
the loop proceeds to run the remaining scheduled cycles unchanged. -/
theorem C8_publish_failure_isolated (p z i stdoutText msg : String) (now : ℚ)
    (rest : List CycleEnv) (values : MetricsData) (s : List TimeSeries)
    (hparse : get_metrics stdoutText = Except.ok values)
    (hbuild : buildSeries (mkHeader p z i now) values = Except.ok s) :
    runCycle p z i ⟨stdoutText, some msg, now⟩ =
      Except.ok ([⟨"projects/" ++ p, s⟩], ["Encountered an error:", msg]) ∧
    runLoop p z i (⟨stdoutText, some msg, now⟩ :: rest) =
      Except.map (fun outs => ([⟨"projects/" ++ p, s⟩],
        ["Encountered an error:", msg]) :: outs) (runLoop p z i rest) := by
  have h1 : runCycle p z i ⟨stdoutText, some msg, now⟩ =
      Except.ok ([⟨"projects/" ++ p, s⟩], ["Encountered an error:", msg]) := by
    simp only [runCycle, hparse, report_metrics, hbuild]
  refine ⟨h1, ?_⟩
  simp only [runLoop, h1]
  cases runLoop p z i rest <;> rfl

/-- C8, witness: a failing publish on a well-formed probe line still yields a
normal cycle result carrying the error log. -/
theorem C8_witness :
    runCycle "p" "z" "i" ⟨"A100,0:4,1,2,3,4,5,6", some "boom", 0⟩ =
      Except.ok ([⟨"projects/" ++ "p", sixSeries⟩], ["Encountered an error:", "boom"]) :=
  (C8_publish_failure_isolated "p" "z" "i" "A100,0:4,1,2,3,4,5,6" "boom" 0 []
    [(["A100", "0:4"], parsedSix)] sixSeries (by decide) (by decide)).1

/-- C9: for every SampleSet handed to the publish stage, either every device
entry holds a value for every catalog metric key, or building the series
raises an explicit exception; a value is never silently defaulted, so no point
is ever published for a missing key. -/
theorem C9_missing_key_raises (hdr : HostHeader) (values : MetricsData) :
    (∀ e ∈ values, ∀ k ∈ catalogKeys, (dictGet e.2 k).isSome = true) ∨
    (∃ err, buildSeries hdr values = Except.error err) := by
  cases hbs : buildSeries hdr values with
  | error err => exact Or.inr ⟨err, rfl⟩
  | ok s =>
    refine Or.inl fun e he k hk => ?_
    obtain ⟨ds, hds⟩ := buildSeries_ok_mem hbs e he
    obtain ⟨pr, hpr, hpr1, hpr2⟩ := catalogKey_pair hk
    simp only [buildDeviceSeries] at hds
    split at hds
    · obtain ⟨ts, hts⟩ := exceptMap_ok_mem hds pr hpr
      have hsome := buildPoint_ok_lookup hpr2 hts
      rwa [hpr1] at hsome
    · exact absurd hds (by simp)

/-- C10: identity resolution maps only the connection error to exit code 2;
when the metadata zone response has fewer than four slash-separated segments,
the positional indexing raises an IndexError that the connectivity handler
does not catch, so `main` ends in an uncaught exception, not in any exit code. -/
theorem C10_short_zone_uncaught (smi : SubprocessOutcome) (zr ir : String)
    (hchk : check_nvidia_smi smi = true)
    (hlen : (pySplit '/' zr).length < 4) :
    main_startup smi (some (zr, ir)) = MainOutcome.uncaught PyErr.indexError ∧
    (∀ c, main_startup smi (some (zr, ir)) ≠ MainOutcome.exit c) ∧
    (∀ metadata, main_startup smi metadata = MainOutcome.exit 2 → metadata = none) := by
  have hmain : main_startup smi (some (zr, ir)) = MainOutcome.uncaught PyErr.indexError := by
    unfold main_startup
    rw [hchk]
    rw [if_neg (by decide : ¬(true = false))]
    simp only [get_instance_params]
    rw [List.get?_eq_none.2 (by omega : (pySplit '/' zr).length ≤ 3)]
  refine ⟨hmain, ?_, ?_⟩
  · intro c hc
    rw [hmain] at hc
    exact MainOutcome.noConfusion hc
  · intro metadata hmd
    cases metadata with
    | none => rfl
    | some md =>
      exfalso
      unfold main_startup at hmd
      rw [hchk, if_neg (by decide : ¬(true = false))] at hmd
      split at hmd
      · rename_i heq
        exact Option.noConfusion heq
      · split at hmd <;> simp at hmd

/-- C10, witness: zone response `abc` (a single segment) ends in the uncaught
IndexError. -/
theorem C10_witness :
    main_startup (SubprocessOutcome.completed "GPU 0: A100") (some ("abc", "42")) =
        MainOutcome.uncaught PyErr.indexError ∧
    (∀ c, main_startup (SubprocessOutcome.completed "GPU 0: A100") (some ("abc", "42")) ≠
        MainOutcome.exit c) ∧
    (∀ metadata, main_startup (SubprocessOutcome.completed "GPU 0: A100") metadata =
        MainOutcome.exit 2 → metadata = none) :=
  C10_short_zone_uncaught (SubprocessOutcome.completed "GPU 0: A100") "abc" "42"
    (by decide) (by decide)
